import Mathlib

/-!
Verification of the audio subsystem of the `twinkle-night` repository.

We give a shallow embedding of the three cooperating units of the
audio-visualization pipeline:

* the audio-analysis adapter
  (`src/frontend/src/components/waveform-visualizer/useAudioAnalyser.ts`),
* the consent-gated playback controller
  (`src/frontend/src/components/background-music/index.tsx` together with
  its parent `Music` component),
* the spectrum canvas renderer
  (`src/frontend/src/components/waveform-visualizer/index.tsx`).

Stateful hook/component code is embedded as explicit state-passing step
functions; asynchronous completions (promise resolution / rejection,
animation-frame firing) are discrete events delivered to the step
function, matching the single-threaded event-driven model of the browser.
-/

namespace TwinkleNight

/-! ## Audio-analysis adapter (`useAudioAnalyser.ts`)

The adapter keeps React state `{analyserNode, isInitialized, error}` and
two refs `audioContextRef`, `sourceNodeRef`.  We additionally model the
observable audio graph: the list of currently connected source nodes
(each paired with the context it belongs to), the list of contexts not
yet closed, and a fresh-id counter for node/context creation. -/

/-- React state of the hook: `analyserNode` (by id), `isInitialized`,
`error` — `useAudioAnalyser.ts` lines 51-58 and 68-72. -/
structure AudioAnalyserState where
  analyserNode : Option Nat
  isInitialized : Bool
  error : Option String
deriving DecidableEq, Repr

/-- Full adapter state: React state, the two refs
(`audioContextRef`, `sourceNodeRef`, lines 74-75), and the modelled
audio graph (`connected` holds `(sourceNodeId, contextId)` pairs for
every source node currently connected; `openContexts` the contexts not
yet closed; `nextId` a fresh-id supply for created nodes/contexts). -/
structure Adapter where
  state : AudioAnalyserState
  audioContextRef : Option Nat
  sourceNodeRef : Option Nat
  connected : List (Nat × Nat)
  openContexts : List Nat
  nextId : Nat
deriving DecidableEq, Repr

/-- Adapter state on first render: both refs null, default React state. -/
def initialAdapter : Adapter :=
  { state := ⟨none, false, none⟩
    audioContextRef := none
    sourceNodeRef := none
    connected := []
    openContexts := []
    nextId := 0 }

/-- First block of `cleanup` (lines 241-249): if `sourceNodeRef.current`
is set, disconnect it (wrapped in try/catch in the source, hence total
here) and null the ref.  `disconnect()` removes the node's connections
from the graph. -/
def disconnectSource (a : Adapter) : Adapter :=
  match a.sourceNodeRef with
  | some s =>
      { a with connected := a.connected.filter (fun p => p.1 != s)
               sourceNodeRef := none }
  | none => a

/-- Second block of `cleanup` (lines 251-259): if `audioContextRef.current`
is set, close the context (try/catch in the source) and null the ref. -/
def closeContext (a : Adapter) : Adapter :=
  match a.audioContextRef with
  | some c =>
      { a with openContexts := a.openContexts.filter (fun x => x != c)
               audioContextRef := none }
  | none => a

/-- `cleanup` (lines 238-269): disconnect the source node, close the
context, then reset the React state to the uninitialized defaults. -/
def cleanup (a : Adapter) : Adapter :=
  { closeContext (disconnectSource a) with state := ⟨none, false, none⟩ }

/-- `initializeAnalyser` (lines 191-232).  The three Boolean flags model
the three fallible steps observed in the source: `fctx` — context
creation/resume fails (`createAudioContext`, lines 84-114, including the
unsupported-browser branch); `fnode` — analyser-node creation fails
(`createAnalyserNode`, lines 123-145); `fsrc` —
`createMediaElementSource` throws inside `connectAudioSource`
(lines 156-183).  The body follows the source line by line:
first `cleanup()` (line 197); then create the context and assign
`audioContextRef.current` (lines 200-201); then create the analyser node
(line 204); then `connectAudioSource` (line 207): disconnect an existing
`sourceNodeRef.current`, create a fresh source node, connect it and store
the ref (lines 162-175); on success set the initialized state
(lines 210-214).  Any failure is caught by the surrounding `try`/`catch`
(lines 217-229), which only resets the React state and records the error
message — it does not touch the refs. -/
def initializeAnalyser (audioElement : Nat) (fctx fnode fsrc : Bool)
    (a : Adapter) : Adapter :=
  let a0 := cleanup a
  if fctx then
    { a0 with state := ⟨none, false, some "AudioContext is not supported in this browser"⟩ }
  else
    let ctx := a0.nextId
    let a1 := { a0 with nextId := a0.nextId + 1
                        openContexts := ctx :: a0.openContexts
                        audioContextRef := some ctx }
    if fnode then
      { a1 with state := ⟨none, false, some "AnalyserNode creation failed"⟩ }
    else
      let an := a1.nextId
      let a2 := { a1 with nextId := a1.nextId + 1 }
      let a3 :=
        match a2.sourceNodeRef with
        | some s => { a2 with connected := a2.connected.filter (fun p => p.1 != s) }
        | none => a2
      if fsrc then
        { a3 with state := ⟨none, false, some "MediaElementAudioSourceNode creation failed"⟩ }
      else
        let src := a3.nextId
        let a4 := { a3 with nextId := a3.nextId + 1
                            connected := (src, ctx) :: a3.connected
                            sourceNodeRef := some src }
        { a4 with state := ⟨some an, true, none⟩ }

/-- Single-source invariant: the set of connected source nodes is empty
when `sourceNodeRef` is null, and is at most the single node held in
`sourceNodeRef` otherwise. -/
def srcInv (a : Adapter) : Prop :=
  match a.sourceNodeRef with
  | none => a.connected = []
  | some s => a.connected = [] ∨ ∃ c, a.connected = [(s, c)]

lemma disconnectSource_sourceNodeRef (a : Adapter) :
    (disconnectSource a).sourceNodeRef = none ∨
      ((disconnectSource a) = a ∧ a.sourceNodeRef = none) := by
  unfold disconnectSource
  cases h : a.sourceNodeRef with
  | none => exact Or.inr ⟨rfl, rfl⟩
  | some s => exact Or.inl rfl

lemma disconnectSource_of_none (a : Adapter) (h : a.sourceNodeRef = none) :
    disconnectSource a = a := by
  unfold disconnectSource
  rw [h]

lemma closeContext_of_none (a : Adapter) (h : a.audioContextRef = none) :
    closeContext a = a := by
  unfold closeContext
  rw [h]

lemma closeContext_sourceNodeRef (a : Adapter) :
    (closeContext a).sourceNodeRef = a.sourceNodeRef := by
  unfold closeContext
  cases h : a.audioContextRef <;> rfl

lemma closeContext_connected (a : Adapter) :
    (closeContext a).connected = a.connected := by
  unfold closeContext
  cases h : a.audioContextRef <;> rfl

lemma cleanup_sourceNodeRef (a : Adapter) : (cleanup a).sourceNodeRef = none := by
  unfold cleanup disconnectSource
  cases h : a.sourceNodeRef with
  | none => rw [closeContext_sourceNodeRef]; exact h
  | some s => rw [closeContext_sourceNodeRef]

lemma cleanup_audioContextRef (a : Adapter) : (cleanup a).audioContextRef = none := by
  unfold cleanup closeContext
  cases h : (disconnectSource a).audioContextRef <;> simp [h]

lemma cleanup_connected (a : Adapter) (h : srcInv a) : (cleanup a).connected = [] := by
  unfold cleanup
  rw [closeContext_connected]
  unfold srcInv at h
  unfold disconnectSource
  cases hs : a.sourceNodeRef with
  | none => rw [hs] at h; simpa using h
  | some s =>
      rw [hs] at h
      rcases h with h | ⟨c, h⟩ <;> simp [h]

lemma cleanup_state (a : Adapter) : (cleanup a).state = ⟨none, false, none⟩ := rfl

lemma cleanup_cleanup (a : Adapter) : cleanup (cleanup a) = cleanup a := by
  have h1 : disconnectSource (cleanup a) = cleanup a :=
    disconnectSource_of_none _ (cleanup_sourceNodeRef a)
  have h2 : closeContext (cleanup a) = cleanup a :=
    closeContext_of_none _ (cleanup_audioContextRef a)
  show { closeContext (disconnectSource (cleanup a)) with
          state := ⟨none, false, none⟩ } = cleanup a
  rw [h1, h2, ← cleanup_state a]

/-- Core behaviour of `initializeAnalyser`: starting from a state
satisfying the single-source invariant, the invariant is preserved and
at most one source node is connected afterwards, whichever of the three
fallible steps fail. -/
lemma initializeAnalyser_srcInv (e : Nat) (f1 f2 f3 : Bool) (a : Adapter)
    (h : srcInv a) :
    srcInv (initializeAnalyser e f1 f2 f3 a) ∧
      (initializeAnalyser e f1 f2 f3 a).connected.length ≤ 1 := by
  have hc : (cleanup a).connected = [] := cleanup_connected a h
  have hs : (cleanup a).sourceNodeRef = none := cleanup_sourceNodeRef a
  cases f1 <;> cases f2 <;> cases f3 <;>
    simp [initializeAnalyser, srcInv, hc, hs]

lemma srcInv_connected_length (a : Adapter) (h : srcInv a) :
    a.connected.length ≤ 1 := by
  unfold srcInv at h
  cases hs : a.sourceNodeRef with
  | none => rw [hs] at h; simp [h]
  | some s =>
      rw [hs] at h
      rcases h with h | ⟨c, h⟩ <;> simp [h]

/-- C1: every call to `initializeAnalyser` preserves the single-source
invariant, so two successive initializations (with any of the fallible
steps succeeding or failing, for any audio elements) leave at most one
connected source node overall — in particular at most one connected
source node on any given processing context.  Re-initialization
disconnects the previous source (via the initial `cleanup()` and the
guard in `connectAudioSource`) before connecting a new one. -/
theorem c1_at_most_one_connected_source (a : Adapter) (e₁ e₂ : Nat)
    (f1 f2 f3 g1 g2 g3 : Bool) (h : srcInv a) :
    srcInv (initializeAnalyser e₁ f1 f2 f3 a) ∧
    (initializeAnalyser e₁ f1 f2 f3 a).connected.length ≤ 1 ∧
    (initializeAnalyser e₂ g1 g2 g3
        (initializeAnalyser e₁ f1 f2 f3 a)).connected.length ≤ 1 ∧
    ∀ c : Nat,
      ((initializeAnalyser e₂ g1 g2 g3
          (initializeAnalyser e₁ f1 f2 f3 a)).connected.filter
        (fun p => p.2 == c)).length ≤ 1 := by
  obtain ⟨h1, h1len⟩ := initializeAnalyser_srcInv e₁ f1 f2 f3 a h
  obtain ⟨h2, h2len⟩ := initializeAnalyser_srcInv e₂ g1 g2 g3 _ h1
  refine ⟨h1, h1len, h2len, fun c => ?_⟩
  exact le_trans (List.length_filter_le _ _) h2len

/-- Witness for C1: two concrete successive successful initializations
from the freshly mounted adapter leave at most one connected source
node, and at most one on context `0`. -/
theorem c1_at_most_one_connected_source_witness :
    (initializeAnalyser 1 false false false
        (initializeAnalyser 0 false false false initialAdapter)).connected.length ≤ 1 ∧
    ((initializeAnalyser 1 false false false
        (initializeAnalyser 0 false false false initialAdapter)).connected.filter
      (fun p => p.2 == 1)).length ≤ 1 := by
  have h := c1_at_most_one_connected_source initialAdapter 0 1
    false false false false false false (by simp [srcInv, initialAdapter])
  exact ⟨h.2.2.1, h.2.2.2 1⟩

/-- C8: `cleanup` is idempotent and total — calling it twice gives the
same adapter state as calling it once, and after a call the React state
holds the uninitialized defaults with both refs cleared.  Totality of
the Lean function models the source's `try`/`catch` around `disconnect`
and `close` (lines 242-259): `cleanup` never throws, also when the
adapter was never initialized. -/
theorem c8_cleanup_idempotent (a : Adapter) :
    cleanup (cleanup a) = cleanup a ∧
    (cleanup a).state.analyserNode = none ∧
    (cleanup a).state.isInitialized = false ∧
    (cleanup a).state.error = none ∧
    (cleanup a).sourceNodeRef = none ∧
    (cleanup a).audioContextRef = none := by
  refine ⟨cleanup_cleanup a, ?_, ?_, ?_, cleanup_sourceNodeRef a,
    cleanup_audioContextRef a⟩ <;> rw [cleanup_state]

/-- C9 counterexample: when `createMediaElementSource` throws after the
context was created (flags `fctx = false`, `fnode = false`,
`fsrc = true`), the `catch` block of `initializeAnalyser` only resets
the React state; `audioContextRef.current` still holds the context
created on line 200-201, and that context was never closed.  The claim's
"no retained audio-graph resources" is therefore false on the code. -/
theorem c9_counterexample :
    (initializeAnalyser 0 false false true initialAdapter).state.isInitialized = false ∧
    (initializeAnalyser 0 false false true initialAdapter).audioContextRef = some 0 ∧
    (initializeAnalyser 0 false false true initialAdapter).openContexts = [0] := by
  refine ⟨rfl, rfl, rfl⟩

/-- C9 (amended): if any step of `initializeAnalyser` fails, the error
is caught (the function is total: no exception propagates), the React
state is reset (analyserNode null, isInitialized false) with the error
message recorded, and no source node remains connected or referenced —
but when the failure happens after context creation, the new context
remains referenced and open until the next `cleanup`/`initializeAnalyser`
call (which starts with `cleanup()`, so a retry is possible). -/
theorem c9_failure_resets_react_state (e : Nat) (f1 f2 f3 : Bool)
    (a : Adapter) (h : srcInv a)
    (hf : f1 = true ∨ f2 = true ∨ f3 = true) :
    (initializeAnalyser e f1 f2 f3 a).state.isInitialized = false ∧
    (initializeAnalyser e f1 f2 f3 a).state.analyserNode = none ∧
    (initializeAnalyser e f1 f2 f3 a).state.error ≠ none ∧
    (initializeAnalyser e f1 f2 f3 a).connected = [] ∧
    (initializeAnalyser e f1 f2 f3 a).sourceNodeRef = none ∧
    (f1 = false → (initializeAnalyser e f1 f2 f3 a).audioContextRef ≠ none) := by
  have hc : (cleanup a).connected = [] := cleanup_connected a h
  have hs : (cleanup a).sourceNodeRef = none := cleanup_sourceNodeRef a
  cases f1 <;> cases f2 <;> cases f3 <;>
    simp_all [initializeAnalyser]

/-- Witness for C9 (amended): concrete failing initialization (analyser
node creation fails) from the fresh adapter. -/
theorem c9_failure_resets_react_state_witness :
    (initializeAnalyser 0 false true false initialAdapter).state.isInitialized = false ∧
    (initializeAnalyser 0 false true false initialAdapter).connected = [] ∧
    (initializeAnalyser 0 false true false initialAdapter).audioContextRef ≠ none := by
  have h := c9_failure_resets_react_state 0 false true false initialAdapter
    (by simp [srcInv, initialAdapter]) (Or.inr (Or.inl rfl))
  exact ⟨h.1, h.2.2.2.1, h.2.2.2.2.2 rfl⟩

/-! ## Consent-gated playback controller
(`background-music/index.tsx` together with the parent `Music`
component that owns `isPlaying` and renders the consent prompt)

The model is a step function over discrete browser events.  React
semantics: every event handler updates state synchronously, and a
`useEffect` re-runs exactly when its dependency array changed relative
to the previous render (`initializeAnalyser` is a `useCallback` with an
empty dependency list, hence referentially stable and never a trigger).
Asynchronous completions — the resolution of an `initializeAnalyser`
call and the rejection of the un-awaited `audioRef.current?.play()`
promise — arrive as separate events on the same event queue. -/

/-- Combined state of the `Music` parent and the `BackgroundMusic`
component: `isPlaying` (parent state, passed down as a prop), `isMuted`
(line 65), the `volume` prop, the audio element's actual `volume`
property (`audioVolume`), the adapter's `isInitialized` flag, and
observation counters: number of `initializeAnalyser` calls, number of
`play()` calls, number of unhandled promise rejections, and number of
media errors logged by `handleAudioError`. -/
structure MusicModel where
  isPlaying : Bool
  isMuted : Bool
  volume : ℚ
  audioVolume : ℚ
  isInitialized : Bool
  initCalls : Nat
  playCalls : Nat
  unhandledRejections : Nat
  mediaErrorsLogged : Nat
deriving DecidableEq, Repr

/-- Discrete events driving the controller. -/
inductive MusicEvent where
  /-- the user clicks the consent button (`Music`: `handlePlay`) -/
  | consentClick : MusicEvent
  /-- the user clicks the mute toggle (`toggleMute`, lines 107-116) -/
  | toggleMute : MusicEvent
  /-- the `volume` prop changes to a new value -/
  | changeVolume : ℚ → MusicEvent
  /-- the pending `initializeAnalyser` promise settles; `true` on
  success (`setState` lines 210-214), `false` on failure (lines 219-226) -/
  | initComplete : Bool → MusicEvent
  /-- the un-awaited `play()` promise rejects -/
  | playRejected : MusicEvent
  /-- the audio element fires its `error` event (`handleAudioError`,
  lines 96-105) -/
  | mediaError : MusicEvent
deriving DecidableEq, Repr

/-- Synchronous state change performed by each event handler. -/
def applyEvent : MusicEvent → MusicModel → MusicModel
  | .consentClick, s => { s with isPlaying := true }
  | .toggleMute, s =>
      if s.isMuted then { s with audioVolume := s.volume, isMuted := false }
      else { s with audioVolume := 0, isMuted := true }
  | .changeVolume v, s => { s with volume := v }
  | .initComplete ok, s => { s with isInitialized := ok }
  | .playRejected, s => { s with unhandledRejections := s.unhandledRejections + 1 }
  | .mediaError, s => { s with mediaErrorsLogged := s.mediaErrorsLogged + 1 }

/-- The volume effect (lines 74-80, dependency array `[volume]`):
assigns the `volume` prop to the audio element. -/
def runVolumeEffect (s : MusicModel) : MusicModel :=
  { s with audioVolume := s.volume }

/-- The play effect body (lines 82-90, dependency array
`[isPlaying, isInitialized, initializeAnalyser]`): when `isPlaying`,
call `play()` and, if not yet initialized, call `initializeAnalyser`. -/
def runPlayEffect (s : MusicModel) : MusicModel :=
  if s.isPlaying then
    let s1 := { s with playCalls := s.playCalls + 1 }
    if s1.isInitialized then s1 else { s1 with initCalls := s1.initCalls + 1 }
  else s

/-- One event step: run the handler, then re-run each effect whose
dependencies changed relative to the pre-event render. -/
def step (e : MusicEvent) (s : MusicModel) : MusicModel :=
  let s1 := applyEvent e s
  let s2 := if s1.volume ≠ s.volume then runVolumeEffect s1 else s1
  if s2.isPlaying ≠ s.isPlaying ∨ s2.isInitialized ≠ s.isInitialized then
    runPlayEffect s2
  else s2

/-- Process a list of events in order. -/
def run (evs : List MusicEvent) (s : MusicModel) : MusicModel :=
  evs.foldl (fun t e => step e t) s

/-- State after the initial mount render and its effects: `isPlaying`
false (parent default), `isMuted` false, audio volume set to the
`volume` prop by the mount run of the volume effect; the play effect
does nothing because `isPlaying` is false. -/
def mountState (v : ℚ) : MusicModel :=
  { isPlaying := false
    isMuted := false
    volume := v
    audioVolume := v
    isInitialized := false
    initCalls := 0
    playCalls := 0
    unhandledRejections := 0
    mediaErrorsLogged := 0 }

/-- The parent `Music` component renders the consent prompt iff
`isPlaying` is false (`{isPlaying ? null : ...}`). -/
def consentVisible (s : MusicModel) : Bool :=
  !s.isPlaying

lemma run_cons (e : MusicEvent) (evs : List MusicEvent) (s : MusicModel) :
    run (e :: evs) s = run evs (step e s) := rfl

/-- Once the adapter reports initialized, no event other than a failed
re-initialization completion can make another `initializeAnalyser` call:
the play effect's guard `!isInitialized` (line 86) blocks it. -/
lemma step_preserves_init (e : MusicEvent) (s : MusicModel)
    (h : s.isInitialized = true) (he : e ≠ MusicEvent.initComplete false) :
    (step e s).isInitialized = true ∧ (step e s).initCalls = s.initCalls := by
  cases e with
  | consentClick =>
      by_cases hp : s.isPlaying <;>
        simp [step, applyEvent, runPlayEffect, h, hp]
  | toggleMute =>
      by_cases hm : s.isMuted <;>
        simp [step, applyEvent, h, hm]
  | changeVolume v =>
      by_cases hv : v = s.volume <;>
        simp [step, applyEvent, runVolumeEffect, h, hv]
  | initComplete ok =>
      cases ok with
      | false => exact absurd rfl he
      | true => simp [step, applyEvent, h]
  | playRejected => simp [step, applyEvent, h]
  | mediaError => simp [step, applyEvent, h]

/-- C2: while `isInitialized` is true, any sequence of later events that
does not contain a failed initialization completion — in particular any
number of mute/unmute toggles and re-renders — leaves the number of
`initializeAnalyser` calls unchanged, and the adapter stays
initialized. -/
theorem c2_initialize_exactly_once (s : MusicModel) (evs : List MusicEvent)
    (h : s.isInitialized = true)
    (hevs : ∀ e ∈ evs, e ≠ MusicEvent.initComplete false) :
    (run evs s).isInitialized = true ∧ (run evs s).initCalls = s.initCalls := by
  induction evs generalizing s with
  | nil => exact ⟨h, rfl⟩
  | cons e rest ih =>
      have he := hevs e (List.mem_cons_self e rest)
      obtain ⟨h1, h2⟩ := step_preserves_init e s h he
      have hr := ih (step e s) h1 (fun x hx => hevs x (List.mem_cons_of_mem e hx))
      rw [run_cons]
      exact ⟨hr.1, by rw [hr.2, h2]⟩

/-- State after mount, one consent click (playback starts and
`initializeAnalyser` is called once) and the successful completion of
that initialization. -/
def c2Scenario : MusicModel :=
  run [MusicEvent.consentClick, MusicEvent.initComplete true] (mountState 1)

/-- Witness for C2: the spec scenario — consent granted once, the
adapter initializes once, then ten mute/unmute clicks in a row — ends
with exactly one `initializeAnalyser` call in total. -/
theorem c2_initialize_exactly_once_witness :
    c2Scenario.initCalls = 1 ∧
    (run (List.replicate 10 MusicEvent.toggleMute) c2Scenario).initCalls = 1 := by
  have h := c2_initialize_exactly_once c2Scenario
    (List.replicate 10 MusicEvent.toggleMute) (by decide) (by decide)
  exact ⟨by decide, by rw [h.2]; decide⟩

/-- C3 counterexample: after the consent click the parent has already
set `isPlaying` to true and hidden the prompt; when the un-awaited
`play()` promise then rejects, nothing in the component observes it —
`isPlaying` stays true, the consent prompt is not visible, the
rejection is unhandled, and no error is logged for it. -/
theorem c3_counterexample :
    (run [MusicEvent.consentClick, MusicEvent.playRejected]
        (mountState 1)).isPlaying = true ∧
    consentVisible (run [MusicEvent.consentClick, MusicEvent.playRejected]
        (mountState 1)) = false ∧
    (run [MusicEvent.consentClick, MusicEvent.playRejected]
        (mountState 1)).unhandledRejections = 1 ∧
    (run [MusicEvent.consentClick, MusicEvent.playRejected]
        (mountState 1)).mediaErrorsLogged = 0 := by
  decide

/-- C3 (amended): the component attaches no handler to the `play()`
promise, so a rejected play command escapes as an unhandled rejection
and changes nothing else — `isPlaying` (set by the parent's consent
click before play is attempted) and the prompt visibility are
untouched, and no error is logged for it; only the audio element's
media `error` event is caught and logged by `handleAudioError`. -/
theorem c3_play_rejection_unhandled (s : MusicModel) :
    step MusicEvent.playRejected s =
      { s with unhandledRejections := s.unhandledRejections + 1 } ∧
    (step MusicEvent.mediaError s).mediaErrorsLogged = s.mediaErrorsLogged + 1 ∧
    (step MusicEvent.mediaError s).isPlaying = s.isPlaying := by
  refine ⟨?_, ?_, ?_⟩ <;> simp [step, applyEvent]

/-- C4: for any configured volume `v ∈ [0,1]`, muting sets the audio
element's output level to 0 while leaving the `volume` prop unchanged,
and unmuting restores the output level to exactly `v`. -/
theorem c4_mute_unmute_identity (s : MusicModel) (v : ℚ)
    (hm : s.isMuted = false) (hv : s.volume = v)
    (h0 : 0 ≤ v) (h1 : v ≤ 1) :
    (step MusicEvent.toggleMute s).audioVolume = 0 ∧
    (step MusicEvent.toggleMute s).volume = v ∧
    (step MusicEvent.toggleMute s).isMuted = true ∧
    (step MusicEvent.toggleMute (step MusicEvent.toggleMute s)).audioVolume = v ∧
    (step MusicEvent.toggleMute (step MusicEvent.toggleMute s)).isMuted = false := by
  subst hv
  simp [step, applyEvent, hm]

/-- Witness for C4 at the mounted state with `v = 1`. -/
theorem c4_mute_unmute_identity_witness :
    (step MusicEvent.toggleMute (mountState 1)).audioVolume = 0 ∧
    (step MusicEvent.toggleMute
      (step MusicEvent.toggleMute (mountState 1))).audioVolume = 1 := by
  have h := c4_mute_unmute_identity (mountState 1) 1
    (by decide) (by decide) (by norm_num) (by norm_num)
  exact ⟨h.1, h.2.2.2.1⟩

/-- C10: the volume effect (dependency array `[volume]`) runs regardless
of mute state, so while muted a change of the `volume` prop to a new
value `v` sets the audio element's output level to `v` with `isMuted`
still true; and the unmute branch of `toggleMute` assigns the current
`volume` prop (there is no saved pre-mute level). -/
theorem c10_volume_change_defeats_mute (s : MusicModel) (v : ℚ)
    (hm : s.isMuted = true) (hv : v ≠ s.volume) :
    (step (MusicEvent.changeVolume v) s).audioVolume = v ∧
    (step (MusicEvent.changeVolume v) s).isMuted = true ∧
    (step MusicEvent.toggleMute s).audioVolume = s.volume := by
  simp [step, applyEvent, runVolumeEffect, hm, hv]

/-- Witness for C10: mute at a state mounted with volume `0`, then
change the volume prop to the new value `1`: the output level becomes
`1` while still muted. -/
theorem c10_volume_change_defeats_mute_witness :
    (step (MusicEvent.changeVolume 1)
      (step MusicEvent.toggleMute (mountState 0))).audioVolume = 1 ∧
    (step (MusicEvent.changeVolume 1)
      (step MusicEvent.toggleMute (mountState 0))).isMuted = true := by
  have h := c10_volume_change_defeats_mute
    (step MusicEvent.toggleMute (mountState 0)) 1
    (by decide) (by decide)
  exact ⟨h.1, h.2.1⟩

/-! ## Spectrum canvas renderer (`waveform-visualizer/index.tsx`)

The renderer's lifecycle is a step function over discrete events: a
props change delivered by a re-render (the effect on lines 236-242 with
dependency array `[isPlaying, analyserNode]`), the firing of a scheduled
animation-frame callback, a window resize, and unmount.  `pending`
models whether an animation-frame callback is currently scheduled
(`animationIdRef`), `cleared` whether the last canvas operation was a
clear, `paints` counts executed `drawSpectrum` body runs past the
guard. -/

/-- Observable renderer state. -/
structure RendererModel where
  isPlaying : Bool
  hasAnalyser : Bool
  pending : Bool
  cleared : Bool
  paints : Nat
  mounted : Bool
deriving DecidableEq, Repr

/-- `drawSpectrum` (lines 103-149): returns early when the analyser
handle is absent (line 107), otherwise clears and repaints the bars. -/
def drawSpectrumR (s : RendererModel) : RendererModel :=
  if s.hasAnalyser then { s with paints := s.paints + 1, cleared := false }
  else s

/-- `animationLoop` (lines 155-166): return if not playing or no
analyser; otherwise draw and schedule the next frame. -/
def animationLoopR (s : RendererModel) : RendererModel :=
  if s.isPlaying && s.hasAnalyser then
    { drawSpectrumR s with pending := true }
  else s

/-- `stopAnimation` (lines 187-202): cancel the pending frame request
and clear the drawing surface. -/
def stopAnimationR (s : RendererModel) : RendererModel :=
  { s with pending := false, cleared := true }

/-- `startAnimation` (lines 172-181): always stop first (no duplicate
loops), then start the loop if the analyser is present and playing. -/
def startAnimationR (s : RendererModel) : RendererModel :=
  let s1 := stopAnimationR s
  if s1.hasAnalyser && s1.isPlaying then animationLoopR s1 else s1

/-- Renderer lifecycle events. -/
inductive RendererEvent where
  /-- a re-render delivers new `isPlaying` / `analyserNode` props -/
  | setProps : Bool → Bool → RendererEvent
  /-- a scheduled animation-frame callback fires -/
  | frameFire : RendererEvent
  /-- the window `resize` event fires (`handleResize`, lines 208-218) -/
  | resize : RendererEvent
  /-- the component unmounts (cleanup on lines 227-230) -/
  | unmount : RendererEvent
deriving DecidableEq, Repr

/-- One renderer step.  An unmounted component receives no events (its
listeners are removed and its pending frame cancelled), hence the
top-level guard.  A props change re-runs the effect of lines 236-242
only when the dependencies changed; a firing frame callback is removed
from the schedule and runs `animationLoop` against the current flags;
`resize` re-initializes the canvas (which resets — clears — the backing
store) and repaints only while playing with an analyser present;
`unmount` removes the resize listener and runs `stopAnimation`. -/
def stepR (e : RendererEvent) (s : RendererModel) : RendererModel :=
  if s.mounted then
    match e with
    | .setProps p a =>
        if p = s.isPlaying ∧ a = s.hasAnalyser then
          { s with isPlaying := p, hasAnalyser := a }
        else
          let s1 := { s with isPlaying := p, hasAnalyser := a }
          if p && a then startAnimationR s1 else stopAnimationR s1
    | .frameFire =>
        if s.pending then animationLoopR { s with pending := false } else s
    | .resize =>
        let s1 := { s with cleared := true }
        if s.isPlaying && s.hasAnalyser then drawSpectrumR s1 else s1
    | .unmount => { stopAnimationR s with mounted := false }
  else s

/-- Process a list of renderer events in order. -/
def runR (evs : List RendererEvent) (s : RendererModel) : RendererModel :=
  evs.foldl (fun t e => stepR e t) s

/-- Renderer state after the mount render and the mount effects
(lines 223-231 initialize the canvas; lines 236-242 run `stopAnimation`
because `isPlaying` is initially false). -/
def mountRenderer : RendererModel :=
  { isPlaying := false
    hasAnalyser := false
    pending := false
    cleared := true
    paints := 0
    mounted := true }

/-- Renderer invariant: a frame callback is scheduled only while
playing with an analyser on a mounted component, and outside that
running state the drawing surface is cleared. -/
def RInv (s : RendererModel) : Prop :=
  (s.pending = true → s.isPlaying = true ∧ s.hasAnalyser = true ∧ s.mounted = true) ∧
  ((s.isPlaying = true ∧ s.hasAnalyser = true ∧ s.mounted = true) ∨ s.cleared = true)

/-- Events that end the Running state: a props change with playback
stopped or the analyser handle absent, or unmount. -/
def endsRunning : RendererEvent → Prop
  | .setProps p a => p = false ∨ a = false
  | .unmount => True
  | _ => False

/-- Events that cannot restart the animation: everything except a props
change to the running configuration. -/
def idleEvent : RendererEvent → Prop
  | .setProps p a => p = false ∨ a = false
  | _ => True

/-- A state in which no repaint can happen: nothing scheduled and not
in the running configuration. -/
def idleState (s : RendererModel) : Prop :=
  s.pending = false ∧
    (s.isPlaying = false ∨ s.hasAnalyser = false ∨ s.mounted = false)

lemma runR_cons (e : RendererEvent) (evs : List RendererEvent) (s : RendererModel) :
    runR (e :: evs) s = runR evs (stepR e s) := rfl

lemma stepR_endsRunning (s : RendererModel) (e : RendererEvent)
    (hinv : RInv s) (he : endsRunning e) :
    (stepR e s).pending = false ∧ (stepR e s).cleared = true ∧
      idleState (stepR e s) := by
  obtain ⟨hp, ha, pend, c, n, m⟩ := s
  obtain ⟨h1, h2⟩ := hinv
  cases e with
  | setProps p a =>
      cases m <;> cases p <;> cases a <;> cases pend <;> cases hp <;> cases ha <;>
        simp_all [stepR, startAnimationR, stopAnimationR, animationLoopR,
          drawSpectrumR, idleState, endsRunning]
  | frameFire => simp_all [endsRunning]
  | resize => simp_all [endsRunning]
  | unmount =>
      cases m <;> cases pend <;>
        simp_all [stepR, stopAnimationR, idleState]

lemma stepR_idle (s : RendererModel) (e : RendererEvent)
    (hs : idleState s) (he : idleEvent e) :
    idleState (stepR e s) ∧ (stepR e s).paints = s.paints := by
  obtain ⟨hp, ha, pend, c, n, m⟩ := s
  obtain ⟨h1, h2⟩ := hs
  cases e with
  | setProps p a =>
      cases m <;> cases p <;> cases a <;> cases hp <;> cases ha <;>
        simp_all [stepR, startAnimationR, stopAnimationR, animationLoopR,
          drawSpectrumR, idleState, idleEvent]
  | frameFire =>
      cases m <;> simp_all [stepR, idleState]
  | resize =>
      cases m <;> cases hp <;> cases ha <;>
        simp_all [stepR, drawSpectrumR, idleState]
  | unmount =>
      cases m <;> simp_all [stepR, stopAnimationR, idleState]

lemma runR_idle (s : RendererModel) (evs : List RendererEvent)
    (hs : idleState s) (hevs : ∀ x ∈ evs, idleEvent x) :
    idleState (runR evs s) ∧ (runR evs s).paints = s.paints := by
  induction evs generalizing s with
  | nil => exact ⟨hs, rfl⟩
  | cons e rest ih =>
      have he := hevs e (List.mem_cons_self e rest)
      obtain ⟨h1, h2⟩ := stepR_idle s e hs he
      have hr := ih (stepR e s) h1 (fun x hx => hevs x (List.mem_cons_of_mem e hx))
      rw [runR_cons]
      exact ⟨hr.1, by rw [hr.2, h2]⟩

/-- C5: when the Running state ends — `isPlaying` goes false, the
analyser handle goes away, or the component unmounts — the pending
animation-frame request is cancelled and the drawing surface is
cleared, and along any sequence of further events that does not restart
playback (frame firings, resizes, further stop events, unmount) no
frame callback remains pending and no further painting occurs. -/
theorem c5_no_paint_after_stop (s : RendererModel) (e : RendererEvent)
    (evs : List RendererEvent) (hinv : RInv s) (he : endsRunning e)
    (hevs : ∀ x ∈ evs, idleEvent x) :
    (stepR e s).pending = false ∧ (stepR e s).cleared = true ∧
    (runR evs (stepR e s)).pending = false ∧
    (runR evs (stepR e s)).paints = (stepR e s).paints := by
  obtain ⟨h1, h2, h3⟩ := stepR_endsRunning s e hinv he
  obtain ⟨h4, h5⟩ := runR_idle (stepR e s) evs h3 hevs
  exact ⟨h1, h2, h4.1, h5⟩

/-- Witness for C5: start the animation by delivering running props to
the mounted renderer, then stop playback; afterwards two frame firings
and a resize leave nothing pending and paint nothing. -/
theorem c5_no_paint_after_stop_witness :
    (stepR (RendererEvent.setProps false true)
      (stepR (RendererEvent.setProps true true) mountRenderer)).pending = false ∧
    (runR [RendererEvent.frameFire, RendererEvent.resize, RendererEvent.frameFire]
      (stepR (RendererEvent.setProps false true)
        (stepR (RendererEvent.setProps true true) mountRenderer))).paints =
      (stepR (RendererEvent.setProps false true)
        (stepR (RendererEvent.setProps true true) mountRenderer)).paints := by
  have h := c5_no_paint_after_stop
    (stepR (RendererEvent.setProps true true) mountRenderer)
    (RendererEvent.setProps false true)
    [RendererEvent.frameFire, RendererEvent.resize, RendererEvent.frameFire]
    (by constructor <;> decide) (Or.inl rfl)
    (by intro x hx; fin_cases hx <;> exact trivial)
  exact ⟨h.1, h.2.2.2⟩

/-! ## Bar geometry of `drawSpectrum`
(`waveform-visualizer/index.tsx` lines 119-148, constants from
`config.ts` / `WAVEFORM_STYLE`) -/

/-- The style constants of `WAVEFORM_STYLE` in
`waveform-visualizer/config.ts` (part of the repository outside the
two main files; lines 49-67 of the config source). -/
structure WaveformStyle where
  backgroundColor : String
  barColor : String
  gradientEndColor : String
  barSpacing : ℚ
  minBarHeight : ℚ
  maxBarHeight : ℚ

def WAVEFORM_STYLE : WaveformStyle :=
  { backgroundColor := "transparent"
    barColor := "#B2C090"
    gradientEndColor := "#FFA500"
    barSpacing := 2
    minBarHeight := 2
    maxBarHeight := 390 }

/-- Line 120: `const barCount = Math.min(frequencyData.length / 2, 256)`
(`n` is always `frequencyBinCount` = fftSize/2, an even power of two,
so the JS real division is exact). -/
def barCount (n : Nat) : Nat := min (n / 2) 256

/-- Line 132:
`const dataIndex = Math.floor((i * (frequencyData.length / 4)) / barCount)`
(for `4 ∣ n` the JS arithmetic is integer-valued up to the final floor,
which coincides with natural division). -/
def dataIndex (n i : Nat) : Nat := (i * (n / 4)) / barCount n

/-- Lines 133-139: `amplitude = frequencyData[dataIndex] / 255` and
`barHeight = Math.max(Math.min(amplitude * height, maxBarHeight), minBarHeight)`. -/
def barHeight (m : Nat) (h : ℚ) : ℚ :=
  max (min ((m : ℚ) / 255 * h) WAVEFORM_STYLE.maxBarHeight)
    WAVEFORM_STYLE.minBarHeight

/-- C6: the renderer draws `min(n/2, 256)` bars, and for every bar
index `i < barCount n` the sampled data index
`⌊i * (n/4) / barCount n⌋` lies strictly below `n/4` — only the lowest
quarter of the spectrum is ever sampled.  The hypothesis `4 ∣ n` holds
for every analyser (`frequencyBinCount` is a power of two ≥ 16, here
1024). -/
theorem c6_lowest_quarter_sampled (n i : Nat) (h4 : 4 ∣ n) (hn : 0 < n)
    (hi : i < barCount n) :
    barCount n = min (n / 2) 256 ∧ dataIndex n i < n / 4 := by
  refine ⟨rfl, ?_⟩
  have h4n : 4 ≤ n := Nat.le_of_dvd hn h4
  have hq : 0 < n / 4 := Nat.div_pos h4n (by norm_num)
  have hb' : 0 < barCount n := Nat.zero_lt_of_lt hi
  have hlt : i * (n / 4) < (n / 4) * barCount n := by
    rw [Nat.mul_comm (n / 4) (barCount n)]
    exact Nat.mul_lt_mul_of_lt_of_le hi (Nat.le_refl _) hq
  exact (Nat.div_lt_iff_lt_mul hb').mpr hlt

/-- Witness for C6 at the configured analyser size: `fftSize = 2048`
gives `n = 1024` bins, `barCount = 256`, and bar 255 samples data index
255 < 256 = n/4. -/
theorem c6_lowest_quarter_sampled_witness :
    barCount 1024 = 256 ∧ dataIndex 1024 255 < 1024 / 4 := by
  have h := c6_lowest_quarter_sampled 1024 255 (by norm_num) (by norm_num)
    (by norm_num [barCount])
  exact ⟨by norm_num [barCount], h.2⟩

/-- C7 counterexample: the claim asserts the bar height for amplitude 1
equals `min(h, maxBarHeight)` for every display height `h`, but for
`h = 1` (below `minBarHeight = 2`) the code clamps up to 2 while
`min(1, 390) = 1`. -/
theorem c7_counterexample :
    barHeight 255 1 = 2 ∧
    min (1 : ℚ) WAVEFORM_STYLE.maxBarHeight = 1 ∧
    barHeight 255 1 ≠ min (1 : ℚ) WAVEFORM_STYLE.maxBarHeight := by
  refine ⟨?_, ?_, ?_⟩ <;> norm_num [barHeight, WAVEFORM_STYLE]

/-- C7 (amended): for every byte magnitude `m ≤ 255` and display height
`h`, the painted bar height is
`clamp((m/255)·h, minBarHeight, maxBarHeight)
  = max (min ((m/255)·h) maxBarHeight) minBarHeight`;
for amplitude 0 it equals `minBarHeight`, and for amplitude 1 it equals
`min h maxBarHeight` provided `h ≥ minBarHeight` (for smaller heights
the lower clamp wins, as the counterexample shows). -/
theorem c7_bar_height_clamped (m : Nat) (h : ℚ) (hm : m ≤ 255)
    (hh : WAVEFORM_STYLE.minBarHeight ≤ h) :
    barHeight m h =
      max (min ((m : ℚ) / 255 * h) WAVEFORM_STYLE.maxBarHeight)
        WAVEFORM_STYLE.minBarHeight ∧
    barHeight 0 h = WAVEFORM_STYLE.minBarHeight ∧
    barHeight 255 h = min h WAVEFORM_STYLE.maxBarHeight := by
  refine ⟨rfl, ?_, ?_⟩
  · show max (min ((0 : ℚ) / 255 * h) WAVEFORM_STYLE.maxBarHeight)
        WAVEFORM_STYLE.minBarHeight = WAVEFORM_STYLE.minBarHeight
    norm_num [WAVEFORM_STYLE]
  · show max (min ((255 : ℚ) / 255 * h) WAVEFORM_STYLE.maxBarHeight)
        WAVEFORM_STYLE.minBarHeight = min h WAVEFORM_STYLE.maxBarHeight
    have h255 : (255 : ℚ) / 255 * h = h := by norm_num
    rw [h255]
    refine max_eq_left (le_min ?_ ?_)
    · exact hh
    · show WAVEFORM_STYLE.minBarHeight ≤ WAVEFORM_STYLE.maxBarHeight
      norm_num [WAVEFORM_STYLE]

/-- Witness for C7 (amended) at `m = 255`, `h = 100`. -/
theorem c7_bar_height_clamped_witness :
    barHeight 0 100 = WAVEFORM_STYLE.minBarHeight ∧
    barHeight 255 100 = min (100 : ℚ) WAVEFORM_STYLE.maxBarHeight := by
  have h := c7_bar_height_clamped 255 100 (by norm_num)
    (by norm_num [WAVEFORM_STYLE])
  exact ⟨h.2.1, h.2.2⟩


